import Mathlib

/-!
Verification of the `css_parser` and `html_ui_builder` modules of the
`bevyex_libs` repository, against the repository's specification.

The value decoders and the rule/stylesheet parsers are shallowly embedded
over an explicit token-stream cursor.  Numeric payloads (`f32` in the
source) are modelled by exact rationals; the only arithmetic the parsers
perform on them is division of a hex byte by 255, which is exact.
The token cursor itself (the `Parser` type of the external tokenizer
crate, with `next`, `try_parse` and `reset_to`) is not part of `src/`
and is modelled from the spec.
-/

namespace CssParser

/-- Modelled from the spec: the lexical tokens of the style language
(spec section 3): identifier, quoted string, number, dimension
(number + unit), percentage, hash-color, punctuation, at-keyword.
The tokenizer that produces them is external to `src/`; whitespace is
skipped by the cursor's `next` and so does not appear in the stream.
`startRule` is the token the external tokenizer emits at the start of a
qualified rule (`Token::StartRule { .. }` in the source; its fields are
never read). -/
inductive Token where
  | ident (s : String)
  | quoted (s : String)
  | number (v : Rat)
  | dimension (v : Rat) (unit : String)
  | percentage (v : Rat)
  | hash (s : String)
  | colon
  | semicolon
  | startRule
  | closeCurlyBrace
  | atKeyword (s : String)
  deriving DecidableEq, Repr

/-- Modelled from the spec: the cursor state of the external `Parser`:
the remaining token stream plus a source-location counter (the index of
the next token, standing in for `current_source_location`). -/
structure PState where
  toks : List Token
  pos : Nat
  deriving DecidableEq, Repr

/-- Error kinds of the typed parse error (spec section 7): `InvalidToken`,
`UnexpectedToken`, and the catch-all lexer-level failure, which in this
embedding is reaching the end of the stream. -/
inductive ParseErrorKind where
  | invalidToken
  | unexpectedToken
  | endOfInput
  deriving DecidableEq, Repr

/-- Typed parse error carrying an error kind and a source location
(`ParseError::with_location` in the source). -/
structure ParseError where
  kind : ParseErrorKind
  location : Nat
  deriving DecidableEq, Repr

/-- Modelled from the spec: `Parser::next` — return the next token and
advance the cursor, or a lexer-level error at end of input. -/
def next (s : PState) : Except ParseError (Token × PState) :=
  match s.toks with
  | [] => .error ⟨.endOfInput, s.pos⟩
  | t :: rest => .ok (t, ⟨rest, s.pos + 1⟩)

/-- Result of a value decoder: the decoded value together with the
cursor state after it, a typed parse error together with the cursor
state after the consumed tokens, or a Rust panic (`unwrap` on `Err`). -/
inductive DRes (α : Type) where
  | ok (a : α) (s : PState)
  | err (e : ParseError) (s : PState)
  | panicked
  deriving DecidableEq, Repr

/-- Bevy `Val`: the normalized length value (pixels, percent, auto,
undefined), with the `f32` payload modelled by a rational. -/
inductive Val where
  | px (v : Rat)
  | percent (v : Rat)
  | auto
  | undefined
  deriving DecidableEq, Repr

/-- Embedding of `str::to_lowercase` (ASCII range; every keyword and
unit the parser compares against is ASCII, where Rust's Unicode-aware
lowercasing and ASCII lowercasing agree). -/
def lowerStr (s : String) : String :=
  (s.toList.map Char.toLower).asString

/-- Embedding of `parse_value` (src/src/css_parser/parser.rs lines 6-35):
dimension with unit px/% to pixels/percent, other units InvalidToken;
bare number to pixels; identifier auto/undefined to the corresponding
variants, other identifiers InvalidToken; percentage token to percent;
lexer errors propagated; any other token UnexpectedToken. -/
def parse_value (input : PState) : DRes Val :=
  let location := input.pos
  match next input with
  | .ok (.dimension value unit, s) =>
      match lowerStr unit with
      | "px" => .ok (.px value) s
      | "%" => .ok (.percent value) s
      | _ => .err ⟨.invalidToken, location⟩ s
  | .ok (.number value, s) => .ok (.px value) s
  | .ok (.ident id, s) =>
      match lowerStr id with
      | "auto" => .ok .auto s
      | "undefined" => .ok .undefined s
      | _ => .err ⟨.invalidToken, location⟩ s
  | .ok (.percentage value, s) => .ok (.percent value) s
  | .error e => .err e input
  | .ok (_, s) => .err ⟨.unexpectedToken, location⟩ s

/-- Bevy `Color`: RGBA with channels in [0,1] (the source only ever
builds the `Rgba` variant), channels modelled by rationals. -/
structure Color where
  red : Rat
  green : Rat
  blue : Rat
  alpha : Rat
  deriving DecidableEq, Repr

/-- Bevy `Color::rgb`: alpha is 1. -/
def Color.rgb (r g b : Rat) : Color := ⟨r, g, b, 1⟩

/-- Bevy `Color::rgba`. -/
def Color.rgba (r g b a : Rat) : Color := ⟨r, g, b, a⟩

/-- Bevy `Color::RED`. -/
def Color.RED : Color := Color.rgb 1 0 0

/-- Bevy `Color::GREEN`. -/
def Color.GREEN : Color := Color.rgb 0 1 0

/-- Bevy `Color::BLUE`. -/
def Color.BLUE : Color := Color.rgb 0 0 1

/-- Bevy `Color::WHITE`. -/
def Color.WHITE : Color := Color.rgb 1 1 1

/-- Bevy `Color::BLACK`. -/
def Color.BLACK : Color := Color.rgb 0 0 0

/-- Bevy `Color::NONE`: fully transparent. -/
def Color.NONE : Color := Color.rgba 0 0 0 0

/-- Value of one hexadecimal digit, upper or lower case. -/
def hexDigit? (c : Char) : Option Nat :=
  if '0' ≤ c ∧ c ≤ '9' then some (c.toNat - '0'.toNat)
  else if 'a' ≤ c ∧ c ≤ 'f' then some (c.toNat - 'a'.toNat + 10)
  else if 'A' ≤ c ∧ c ≤ 'F' then some (c.toNat - 'A'.toNat + 10)
  else none

/-- Embedding of `u8::from_str_radix(s, 16)` on a two-character slice:
`some` of the byte value when both characters are hex digits, `none`
otherwise (the optional leading sign accepted by `from_str_radix` cannot
occur in a hash token and is omitted). -/
def hexByte? (s : String) : Option Nat :=
  match s.toList with
  | [c1, c2] =>
      match hexDigit? c1, hexDigit? c2 with
      | some h1, some h2 => some (16 * h1 + h2)
      | _, _ => none
  | _ => none

/-- Character-slice `s[a..b]` of the source (byte indices in Rust; the
hash tokens the decoders slice are ASCII, where the two agree). -/
def strSlice (s : String) (a b : Nat) : String :=
  ((s.toList.drop a).take (b - a)).asString

/-- Embedding of `parse_color` (src/src/css_parser/parser.rs lines
37-89): the six color keywords map to fixed constants, other
identifiers are InvalidToken; a hash of length 6 is decoded as RGB with
alpha 1 and one of length 8 as RGBA, each channel a hex byte divided by
255, with `from_str_radix(..).unwrap()` panicking when a slice is not
hexadecimal; a hash of any other length is InvalidToken; lexer errors
are propagated; any other token is UnexpectedToken.  String length is
character count (byte count in Rust; identical on ASCII hashes). -/
def parse_color (input : PState) : DRes Color :=
  let location := input.pos
  match next input with
  | .ok (.ident id, s) =>
      match lowerStr id with
      | "red" => .ok Color.RED s
      | "green" => .ok Color.GREEN s
      | "blue" => .ok Color.BLUE s
      | "white" => .ok Color.WHITE s
      | "black" => .ok Color.BLACK s
      | "transparent" => .ok Color.NONE s
      | _ => .err ⟨.invalidToken, location⟩ s
  | .ok (.hash hex, s) =>
      if hex.length = 6 then
        match hexByte? (strSlice hex 0 2), hexByte? (strSlice hex 2 4),
            hexByte? (strSlice hex 4 6) with
        | some r, some g, some b =>
            .ok (Color.rgb ((r : Rat) / 255) ((g : Rat) / 255) ((b : Rat) / 255)) s
        | _, _, _ => .panicked
      else if hex.length = 8 then
        match hexByte? (strSlice hex 0 2), hexByte? (strSlice hex 2 4),
            hexByte? (strSlice hex 4 6), hexByte? (strSlice hex 6 8) with
        | some r, some g, some b, some a =>
            .ok (Color.rgba ((r : Rat) / 255) ((g : Rat) / 255) ((b : Rat) / 255)
              ((a : Rat) / 255)) s
        | _, _, _, _ => .panicked
      else
        .err ⟨.invalidToken, location⟩ s
  | .error e => .err e input
  | .ok (_, s) => .err ⟨.unexpectedToken, location⟩ s

/-- Bevy `UiRect<Val>`: four independently settable edges. -/
structure UiRect where
  left : Val
  right : Val
  top : Val
  bottom : Val
  deriving DecidableEq, Repr

/-- Bevy `UiRect::all`: every edge set to the same value. -/
def UiRect.all (v : Val) : UiRect := ⟨v, v, v, v⟩

/-- Bevy `UiRect::new`: its parameters are, in order, left, right, top,
bottom (this argument order is fixed by the bevy API and is also the
order the repository's own `html_ui_builder/utils.rs` passes edges to
`UiRect::new`). -/
def UiRect.new (left right top bottom : Val) : UiRect :=
  ⟨left, right, top, bottom⟩

/-- Modelled from the spec: `Parser::try_parse` of the external cursor
crate — a save/restore probe (spec sections 4.1 and 9): run the Length
decoder; on success keep the advanced cursor, on failure restore the
cursor and yield nothing; probes are cheap and non-throwing. -/
def try_parse_value (input : PState) : Option Val × PState :=
  match parse_value input with
  | .ok v s => (some v, s)
  | _ => (none, input)

/-- Embedding of `parse_ui_rect` (src/src/css_parser/parser.rs lines
91-115): one mandatory Length then up to three probed ones;
1 value gives `UiRect::all`, 2 values give
`UiRect::new(first, second, first, second)`, 3 values give
`UiRect::new(first, second, third, second)`, 4 values build the record
`left := fourth, right := second, top := first, bottom := third`;
an impossible probe combination is UnexpectedToken. -/
def parse_ui_rect (input : PState) : DRes UiRect :=
  let location := input.pos
  match parse_value input with
  | .err e s => .err e s
  | .panicked => .panicked
  | .ok first s1 =>
      let (second, s2) := try_parse_value s1
      let (third, s3) := try_parse_value s2
      let (fourth, s4) := try_parse_value s3
      match second, third, fourth with
      | none, none, none => .ok (UiRect.all first) s4
      | some second, none, none => .ok (UiRect.new first second first second) s4
      | some second, some third, none => .ok (UiRect.new first second third second) s4
      | some second, some third, some fourth =>
          .ok { left := fourth, right := second, top := first, bottom := third } s4
      | _, _, _ => .err ⟨.unexpectedToken, location⟩ s4

/-- Bevy `Display`. -/
inductive Display where
  | flex
  | none
  deriving DecidableEq, Repr

/-- Bevy `PositionType`. -/
inductive PositionType where
  | relative
  | absolute
  deriving DecidableEq, Repr

/-- Bevy `Direction` (present in `StyleProperties` but never parsed). -/
inductive Direction where
  | inherit
  | leftToRight
  | rightToLeft
  deriving DecidableEq, Repr

/-- Bevy `FlexDirection`. -/
inductive FlexDirection where
  | row
  | column
  | rowReverse
  | columnReverse
  deriving DecidableEq, Repr

/-- Bevy `FlexWrap`. -/
inductive FlexWrap where
  | noWrap
  | wrap
  | wrapReverse
  deriving DecidableEq, Repr

/-- Bevy `AlignItems`. -/
inductive AlignItems where
  | flexStart
  | flexEnd
  | center
  | baseline
  | stretch
  deriving DecidableEq, Repr

/-- Bevy `AlignSelf`. -/
inductive AlignSelf where
  | auto
  | flexStart
  | flexEnd
  | center
  | baseline
  | stretch
  deriving DecidableEq, Repr

/-- Bevy `AlignContent`. -/
inductive AlignContent where
  | flexStart
  | flexEnd
  | center
  | spaceBetween
  | spaceAround
  | stretch
  deriving DecidableEq, Repr

/-- Bevy `JustifyContent`. -/
inductive JustifyContent where
  | flexStart
  | flexEnd
  | center
  | spaceBetween
  | spaceAround
  | spaceEvenly
  deriving DecidableEq, Repr

/-- Bevy `Overflow` (the three values the source parses). -/
inductive Overflow where
  | visible
  | hidden
  | scroll
  deriving DecidableEq, Repr

/-- Bevy `BackgroundColor`: a newtype over `Color`. -/
structure BackgroundColor where
  color : Color
  deriving DecidableEq, Repr

/-- Embedding of `StyleProperties` (src/src/css_parser/types.rs lines
11-36): one optional slot per supported property; the four box-edge
rects are plain `UiRect<Val>` fields (not options). -/
structure StyleProperties where
  display : Option Display := Option.none
  position_type : Option PositionType := Option.none
  direction : Option Direction := Option.none
  flex_direction : Option FlexDirection := Option.none
  flex_wrap : Option FlexWrap := Option.none
  align_items : Option AlignItems := Option.none
  align_self : Option AlignSelf := Option.none
  align_content : Option AlignContent := Option.none
  justify_content : Option JustifyContent := Option.none
  position : UiRect := UiRect.all Val.undefined
  margin : UiRect := UiRect.all Val.undefined
  padding : UiRect := UiRect.all Val.undefined
  border : UiRect := UiRect.all Val.undefined
  width : Option Val := Option.none
  height : Option Val := Option.none
  min_width : Option Val := Option.none
  max_width : Option Val := Option.none
  min_height : Option Val := Option.none
  max_height : Option Val := Option.none
  aspect_ratio : Option Rat := Option.none
  overflow : Option Overflow := Option.none
  background_color : Option BackgroundColor := Option.none
  custom_property : Option String := Option.none
  deriving DecidableEq, Repr

/-- `StyleProperties::default()`: every optional slot unset, every box
rect at its bevy default (`Val::default()` is `Val::Undefined` in the
bevy generation this module targets, the one that still has
`Val::Undefined` and the generic `UiRect<Val>`). -/
def StyleProperties.defaultProps : StyleProperties := {}

/-- The rules map `HashMap<String, StyleProperties>`, modelled as an
association list with unique keys (first binding wins on lookup,
insertion replaces in place or appends). -/
def RMap := List (String × StyleProperties)

instance : DecidableEq RMap := by
  unfold RMap
  infer_instance

instance : Repr RMap := by
  unfold RMap
  infer_instance

/-- Lookup in the rules map (`HashMap::get`). -/
def RMap.get (m : RMap) (k : String) : Option StyleProperties :=
  match m with
  | [] => Option.none
  | (k0, v0) :: rest => if k0 = k then some v0 else RMap.get rest k

/-- Insertion into the rules map (`HashMap::insert`): replaces the
existing binding in place, else appends. -/
def RMap.insert (m : RMap) (k : String) (v : StyleProperties) : RMap :=
  match m with
  | [] => [(k, v)]
  | (k0, v0) :: rest =>
      if k0 = k then (k0, v) :: rest else (k0, v0) :: RMap.insert rest k v

/-- Embedding of `rules.entry(selector).or_insert_with(StyleProperties::default)`:
the current properties of the selector and the map with the entry
guaranteed present. -/
def entryOr (rules : RMap) (selector : String) : StyleProperties × RMap :=
  match RMap.get rules selector with
  | some p => (p, rules)
  | Option.none =>
      (StyleProperties.defaultProps,
        RMap.insert rules selector StyleProperties.defaultProps)

/-- The repeated enum-valued declaration block of `parse_rule`
(`match input.next() { Ok(Ident(i)) => match lowercase ... ,
Err(e) => Err(e), _ => UnexpectedToken }`), factored over the keyword
table of each property. -/
def parseEnumValue {α : Type} (table : List (String × α)) (input : PState) : DRes α :=
  let location := input.pos
  match next input with
  | .ok (.ident id, s) =>
      match List.lookup (lowerStr id) table with
      | some v => .ok v s
      | Option.none => .err ⟨.invalidToken, location⟩ s
  | .error e => .err e input
  | .ok (_, s) => .err ⟨.unexpectedToken, location⟩ s

/-- Outcome of `parse_rule`: `Ok(())` or a typed error, together with
the cursor state reached and the (mutated in place) rules map; or a
panic propagated from a value decoder. -/
inductive RuleOut where
  | ok (s : PState) (rules : RMap)
  | err (e : ParseError) (s : PState) (rules : RMap)
  | panicked
  deriving DecidableEq, Repr

/-- The skip loop of the unrecognized-property arm of `parse_rule`
(src/src/css_parser/parser.rs lines 387-393): consume tokens until a
semicolon has been consumed or the stream is exhausted.  Note it does
NOT stop at a closing brace. -/
def skipToSemicolonAux : List Token → Nat → List Token × Nat
  | [], pos => ([], pos)
  | t :: rest, pos =>
      if t = Token.semicolon then (rest, pos + 1)
      else skipToSemicolonAux rest (pos + 1)

/-- The same loop packaged over the cursor state. -/
def skipToSemicolon (s : PState) : PState :=
  let (toks, pos) := skipToSemicolonAux s.toks s.pos
  ⟨toks, pos⟩

/-- Keyword table of the `display` arm. -/
def displayTable : List (String × Display) :=
  [("none", Display.none), ("flex", Display.flex)]

/-- Keyword table of the `position-type` arm. -/
def positionTypeTable : List (String × PositionType) :=
  [("absolute", PositionType.absolute), ("relative", PositionType.relative)]

/-- Keyword table of the `flex-direction` arm. -/
def flexDirectionTable : List (String × FlexDirection) :=
  [("row", FlexDirection.row), ("column", FlexDirection.column),
   ("row-reverse", FlexDirection.rowReverse),
   ("column-reverse", FlexDirection.columnReverse)]

/-- Keyword table of the `flex-wrap` arm. -/
def flexWrapTable : List (String × FlexWrap) :=
  [("nowrap", FlexWrap.noWrap), ("wrap", FlexWrap.wrap),
   ("wrap-reverse", FlexWrap.wrapReverse)]

/-- Keyword table of the `align-items` arm. -/
def alignItemsTable : List (String × AlignItems) :=
  [("flex-start", AlignItems.flexStart), ("flex-end", AlignItems.flexEnd),
   ("center", AlignItems.center), ("baseline", AlignItems.baseline),
   ("stretch", AlignItems.stretch)]

/-- Keyword table of the `align-self` arm. -/
def alignSelfTable : List (String × AlignSelf) :=
  [("auto", AlignSelf.auto), ("flex-start", AlignSelf.flexStart),
   ("flex-end", AlignSelf.flexEnd), ("center", AlignSelf.center),
   ("baseline", AlignSelf.baseline), ("stretch", AlignSelf.stretch)]

/-- Keyword table of the `align-content` arm. -/
def alignContentTable : List (String × AlignContent) :=
  [("flex-start", AlignContent.flexStart), ("flex-end", AlignContent.flexEnd),
   ("center", AlignContent.center), ("space-between", AlignContent.spaceBetween),
   ("space-around", AlignContent.spaceAround), ("stretch", AlignContent.stretch)]

/-- Keyword table of the `justify-content` arm. -/
def justifyContentTable : List (String × JustifyContent) :=
  [("flex-start", JustifyContent.flexStart), ("flex-end", JustifyContent.flexEnd),
   ("center", JustifyContent.center),
   ("space-between", JustifyContent.spaceBetween),
   ("space-around", JustifyContent.spaceAround),
   ("space-evenly", JustifyContent.spaceEvenly)]

/-- Keyword table of the `overflow` arm. -/
def overflowTable : List (String × Overflow) :=
  [("visible", Overflow.visible), ("hidden", Overflow.hidden),
   ("scroll", Overflow.scroll)]

/-- Embedding of `parse_rule` (src/src/css_parser/parser.rs lines
117-419): read a property name and a colon, create the rules-map entry
for the selector, dispatch on the lower-cased property name, decode the
value and write the corresponding slot; an unrecognized property name
skips to the next semicolon and succeeds; a closing brace where the
property name or the colon was expected is the normal end of the rule;
value-decoder errors are returned with the entry already created. -/
def parse_rule (input : PState) (selector : String) (rules : RMap) : RuleOut :=
  let location := input.pos
  match next input with
  | .ok (.ident property_name, s1) =>
      match next s1 with
      | .ok (.colon, s2) =>
          let (style_props, rules1) := entryOr rules selector
          let put := fun (p : StyleProperties) => RMap.insert rules1 selector p
          match lowerStr property_name with
          | "display" =>
              match parseEnumValue displayTable s2 with
              | .ok v s3 => .ok s3 (put { style_props with display := some v })
              | .err e s3 => .err e s3 rules1
              | .panicked => .panicked
          | "position-type" =>
              match parseEnumValue positionTypeTable s2 with
              | .ok v s3 => .ok s3 (put { style_props with position_type := some v })
              | .err e s3 => .err e s3 rules1
              | .panicked => .panicked
          | "flex-direction" =>
              match parseEnumValue flexDirectionTable s2 with
              | .ok v s3 => .ok s3 (put { style_props with flex_direction := some v })
              | .err e s3 => .err e s3 rules1
              | .panicked => .panicked
          | "flex-wrap" =>
              match parseEnumValue flexWrapTable s2 with
              | .ok v s3 => .ok s3 (put { style_props with flex_wrap := some v })
              | .err e s3 => .err e s3 rules1
              | .panicked => .panicked
          | "align-items" =>
              match parseEnumValue alignItemsTable s2 with
              | .ok v s3 => .ok s3 (put { style_props with align_items := some v })
              | .err e s3 => .err e s3 rules1
              | .panicked => .panicked
          | "align-self" =>
              match parseEnumValue alignSelfTable s2 with
              | .ok v s3 => .ok s3 (put { style_props with align_self := some v })
              | .err e s3 => .err e s3 rules1
              | .panicked => .panicked
          | "align-content" =>
              match parseEnumValue alignContentTable s2 with
              | .ok v s3 => .ok s3 (put { style_props with align_content := some v })
              | .err e s3 => .err e s3 rules1
              | .panicked => .panicked
          | "justify-content" =>
              match parseEnumValue justifyContentTable s2 with
              | .ok v s3 => .ok s3 (put { style_props with justify_content := some v })
              | .err e s3 => .err e s3 rules1
              | .panicked => .panicked
          | "position" =>
              match parse_ui_rect s2 with
              | .ok v s3 => .ok s3 (put { style_props with position := v })
              | .err e s3 => .err e s3 rules1
              | .panicked => .panicked
          | "margin" =>
              match parse_ui_rect s2 with
              | .ok v s3 => .ok s3 (put { style_props with margin := v })
              | .err e s3 => .err e s3 rules1
              | .panicked => .panicked
          | "padding" =>
              match parse_ui_rect s2 with
              | .ok v s3 => .ok s3 (put { style_props with padding := v })
              | .err e s3 => .err e s3 rules1
              | .panicked => .panicked
          | "border" =>
              match parse_ui_rect s2 with
              | .ok v s3 => .ok s3 (put { style_props with border := v })
              | .err e s3 => .err e s3 rules1
              | .panicked => .panicked
          | "width" =>
              match parse_value s2 with
              | .ok v s3 => .ok s3 (put { style_props with width := some v })
              | .err e s3 => .err e s3 rules1
              | .panicked => .panicked
          | "height" =>
              match parse_value s2 with
              | .ok v s3 => .ok s3 (put { style_props with height := some v })
              | .err e s3 => .err e s3 rules1
              | .panicked => .panicked
          | "min-width" =>
              match parse_value s2 with
              | .ok v s3 => .ok s3 (put { style_props with min_width := some v })
              | .err e s3 => .err e s3 rules1
              | .panicked => .panicked
          | "max-width" =>
              match parse_value s2 with
              | .ok v s3 => .ok s3 (put { style_props with max_width := some v })
              | .err e s3 => .err e s3 rules1
              | .panicked => .panicked
          | "min-height" =>
              match parse_value s2 with
              | .ok v s3 => .ok s3 (put { style_props with min_height := some v })
              | .err e s3 => .err e s3 rules1
              | .panicked => .panicked
          | "max-height" =>
              match parse_value s2 with
              | .ok v s3 => .ok s3 (put { style_props with max_height := some v })
              | .err e s3 => .err e s3 rules1
              | .panicked => .panicked
          | "aspect-ratio" =>
              let location2 := s2.pos
              match next s2 with
              | .ok (.number value, s3) =>
                  .ok s3 (put { style_props with aspect_ratio := some value })
              | .error e => .err e s2 rules1
              | .ok (_, s3) => .err ⟨.unexpectedToken, location2⟩ s3 rules1
          | "overflow" =>
              match parseEnumValue overflowTable s2 with
              | .ok v s3 => .ok s3 (put { style_props with overflow := some v })
              | .err e s3 => .err e s3 rules1
              | .panicked => .panicked
          | "background-color" =>
              match parse_color s2 with
              | .ok c s3 =>
                  .ok s3 (put { style_props with background_color := some ⟨c⟩ })
              | .err e s3 => .err e s3 rules1
              | .panicked => .panicked
          | "custom-property" =>
              let location2 := s2.pos
              match next s2 with
              | .ok (.ident id, s3) =>
                  .ok s3 (put { style_props with custom_property := some id })
              | .ok (.quoted str, s3) =>
                  .ok s3 (put { style_props with custom_property := some str })
              | .error e => .err e s2 rules1
              | .ok (_, s3) => .err ⟨.unexpectedToken, location2⟩ s3 rules1
          | _ => .ok (skipToSemicolon s2) rules1
      | .ok (.closeCurlyBrace, s2) => .ok s2 rules
      | .error e => .err e s1 rules
      | .ok (_, s2) => .err ⟨.unexpectedToken, location⟩ s2 rules
  | .ok (.closeCurlyBrace, s1) => .ok s1 rules
  | .error e => .err e input rules
  | .ok (_, s1) => .err ⟨.unexpectedToken, location⟩ s1 rules

def skipToSemicolonOrBraceAux : List Token → Nat → List Token × Nat
  | [], pos => ([], pos)
  | t :: rest, pos =>
      if t = Token.semicolon ∨ t = Token.closeCurlyBrace then (rest, pos + 1)
      else skipToSemicolonOrBraceAux rest (pos + 1)

/-- The declaration-error recovery loop of `parse_stylesheet`
(src/src/css_parser/parser.rs lines 455-468): consume tokens until a
semicolon or a closing brace has been consumed or the stream is
exhausted. -/
def skipToSemicolonOrBrace (s : PState) : PState :=
  let (toks, pos) := skipToSemicolonOrBraceAux s.toks s.pos
  ⟨toks, pos⟩

def skipToCloseBraceAux : List Token → Nat → List Token × Nat
  | [], pos => ([], pos)
  | t :: rest, pos =>
      if t = Token.closeCurlyBrace then (rest, pos + 1)
      else skipToCloseBraceAux rest (pos + 1)

/-- The at-rule skip loop of `parse_stylesheet` (lines 481-485):
consume tokens up to and including the next closing brace. -/
def skipToCloseBrace (s : PState) : PState :=
  let (toks, pos) := skipToCloseBraceAux s.toks s.pos
  ⟨toks, pos⟩

/-- Outcome of the rule-body loop: the cursor state and rules map when
the loop exits back to the top level, a propagated panic, or fuel
exhaustion of the embedding (never reached with the fuel
`parse_stylesheet` supplies, as every iteration consumes input). -/
inductive BodyOut where
  | cont (s : PState) (rules : RMap)
  | panicked
  | fuelOut
  deriving DecidableEq, Repr

/-- The rule-body loop of `parse_stylesheet` (lines 444-478): a closing
brace ends the body; stray semicolons are skipped; any other token is
pushed back (`reset_to`) and handed to `parse_rule`; on an
InvalidToken/UnexpectedToken error the shared recovery skip runs and
the body loop continues; on any other error kind the body scan aborts
(with a diagnostic print) but parsing of subsequent rules continues. -/
def bodyLoop : Nat → PState → String → RMap → BodyOut
  | 0, _, _, _ => .fuelOut
  | fuel + 1, s, selector, rules =>
      match next s with
      | .error _ => .cont s rules
      | .ok (.closeCurlyBrace, s1) => .cont s1 rules
      | .ok (.semicolon, s1) => bodyLoop fuel s1 selector rules
      | .ok (_, _) =>
          match parse_rule s selector rules with
          | .ok s1 rules1 => bodyLoop fuel s1 selector rules1
          | .err e s1 rules1 =>
              match e.kind with
              | .unexpectedToken =>
                  bodyLoop fuel (skipToSemicolonOrBrace s1) selector rules1
              | .invalidToken =>
                  bodyLoop fuel (skipToSemicolonOrBrace s1) selector rules1
              | _ => .cont s1 rules1
          | .panicked => .panicked

/-- Outcome of `parse_stylesheet`: the final rules map, a propagated
panic, or fuel exhaustion of the embedding (never reached with the
supplied fuel). -/
inductive SheetOut where
  | done (rules : RMap)
  | panicked
  | fuelOut
  deriving DecidableEq, Repr

/-- The top-level loop of `parse_stylesheet` (lines 424-492): on a
rule-start token, read the selector (identifier, quoted string, or a
colon followed by one of those, concatenated as a pseudo-selector) and
run the rule-body loop, silently skipping the block opener when no
selector token follows; skip at-rules up to their closing brace; ignore
whitespace, stray semicolons, stray closing braces and anything else. -/
def topLoop : Nat → PState → RMap → SheetOut
  | 0, _, _ => .fuelOut
  | fuel + 1, s, rules =>
      match next s with
      | .error _ => .done rules
      | .ok (.startRule, s1) =>
          let afterBody := fun (sel : String) (s2 : PState) =>
            match bodyLoop fuel s2 sel rules with
            | .cont s3 rules3 => topLoop fuel s3 rules3
            | .panicked => SheetOut.panicked
            | .fuelOut => SheetOut.fuelOut
          match next s1 with
          | .ok (.ident sel, s2) => afterBody sel s2
          | .ok (.quoted sel, s2) => afterBody sel s2
          | .ok (.colon, s2) =>
              match next s2 with
              | .ok (.ident name, s3) => afterBody (":" ++ name) s3
              | .ok (.quoted name, s3) => afterBody (":" ++ name) s3
              | .ok (_, s3) => topLoop fuel s3 rules
              | .error _ => topLoop fuel s2 rules
          | .ok (_, s2) => topLoop fuel s2 rules
          | .error _ => topLoop fuel s1 rules
      | .ok (.atKeyword _, s1) => topLoop fuel (skipToCloseBrace s1) rules
      | .ok (_, s1) => topLoop fuel s1 rules

/-- Embedding of `parse_stylesheet` (src/src/css_parser/parser.rs lines
421-493) over the token stream of the stylesheet text (the external
tokenizer is modelled from the spec, see `Token`).  The fuel dominates
every possible iteration count, since each loop iteration consumes at
least one token, so `SheetOut.fuelOut` is unreachable from here. -/
def parse_stylesheet (ts : List Token) (rules : RMap) : SheetOut :=
  topLoop (2 * ts.length + 16) ⟨ts, 0⟩ rules

/-- Bevy `Style`, restricted to the fields the `From<StyleProperties>`
impl writes (src/src/css_parser/types.rs lines 38-65); the remaining
bevy fields are covered there by `..Default::default()` and are never
read by this module. -/
structure Style where
  display : Display
  position_type : PositionType
  direction : Direction
  flex_direction : FlexDirection
  flex_wrap : FlexWrap
  align_items : AlignItems
  align_self : AlignSelf
  align_content : AlignContent
  justify_content : JustifyContent
  position : UiRect
  margin : UiRect
  padding : UiRect
  border : UiRect
  width : Val
  height : Val
  min_width : Val
  max_width : Val
  min_height : Val
  max_height : Val
  aspect_ratio : Option Rat
  overflow : Overflow
  deriving DecidableEq, Repr

/-- Bevy `Style::default()` on the modelled fields (bevy's defaults:
`Display::Flex`, `PositionType::Relative`, `Direction::Inherit`,
`FlexDirection::Row`, `FlexWrap::NoWrap`, `AlignItems::Stretch`,
`AlignSelf::Auto`, `AlignContent::Stretch`,
`JustifyContent::FlexStart`, `Val::Undefined` for every dimension and
edge, `None` aspect ratio, `Overflow::Visible`). -/
def Style.defaultStyle : Style where
  display := Display.flex
  position_type := PositionType.relative
  direction := Direction.inherit
  flex_direction := FlexDirection.row
  flex_wrap := FlexWrap.noWrap
  align_items := AlignItems.stretch
  align_self := AlignSelf.auto
  align_content := AlignContent.stretch
  justify_content := JustifyContent.flexStart
  position := UiRect.all Val.undefined
  margin := UiRect.all Val.undefined
  padding := UiRect.all Val.undefined
  border := UiRect.all Val.undefined
  width := Val.undefined
  height := Val.undefined
  min_width := Val.undefined
  max_width := Val.undefined
  min_height := Val.undefined
  max_height := Val.undefined
  aspect_ratio := Option.none
  overflow := Overflow.visible

/-- Embedding of `impl From<StyleProperties> for Style`
(src/src/css_parser/types.rs lines 38-65): every optional slot is
`unwrap_or(Default::default())`, the box rects are copied as they are,
and `aspect_ratio` stays optional. -/
def styleFromProps (props : StyleProperties) : Style where
  display := props.display.getD Style.defaultStyle.display
  position_type := props.position_type.getD Style.defaultStyle.position_type
  direction := props.direction.getD Style.defaultStyle.direction
  flex_direction := props.flex_direction.getD Style.defaultStyle.flex_direction
  flex_wrap := props.flex_wrap.getD Style.defaultStyle.flex_wrap
  align_items := props.align_items.getD Style.defaultStyle.align_items
  align_self := props.align_self.getD Style.defaultStyle.align_self
  align_content := props.align_content.getD Style.defaultStyle.align_content
  justify_content := props.justify_content.getD Style.defaultStyle.justify_content
  position := props.position
  margin := props.margin
  padding := props.padding
  border := props.border
  width := props.width.getD Style.defaultStyle.width
  height := props.height.getD Style.defaultStyle.height
  min_width := props.min_width.getD Style.defaultStyle.min_width
  max_width := props.max_width.getD Style.defaultStyle.max_width
  min_height := props.min_height.getD Style.defaultStyle.min_height
  max_height := props.max_height.getD Style.defaultStyle.max_height
  aspect_ratio := props.aspect_ratio
  overflow := props.overflow.getD Style.defaultStyle.overflow

/-- Embedding of the per-entity effect of `apply_css_system`
(src/src/css_parser/systems.rs lines 21-31): look the entity's
`CssSelector` string up in the rules map by exact string equality; on a
hit replace the entity's whole `Style` by `Style::from` of the matched
properties; on a miss leave the style unchanged. -/
def apply_css_element (rules : RMap) (selector : String) (style : Style) : Style :=
  match RMap.get rules selector with
  | some props => styleFromProps props
  | Option.none => style

end CssParser

namespace HtmlUiBuilder

/-- The `CssPropertyValue` enum of src/src/html_ui_builder/css.rs
(lines 23-47), with `f32` payloads and `CssColor::RGBA` byte channels
modelled by rationals. -/
inductive CssPropertyValue where
  | color (red green blue alpha : Rat)
  | length (value : Rat) (unit : String)
  | str (s : String)
  | number (v : Rat)
  | padding (top right bottom left : Rat)
  | margin (top right bottom left : Rat)
  | borderRadius (top_left top_right bottom_right bottom_left : Rat)
  deriving DecidableEq, Repr

/-- The property map of one rule (`HashMap<String, CssPropertyValue>`),
as an association list with unique keys. -/
def PropMap := List (String × CssPropertyValue)

instance : DecidableEq PropMap := by
  unfold PropMap
  infer_instance

instance : Repr PropMap := by
  unfold PropMap
  infer_instance

/-- Lookup (`HashMap::get`). -/
def PropMap.get (m : PropMap) (k : String) : Option CssPropertyValue :=
  match m with
  | [] => Option.none
  | (k0, v0) :: rest => if k0 = k then some v0 else PropMap.get rest k

/-- Insertion (`HashMap::insert`): replaces the existing binding in
place, else appends. -/
def PropMap.insert (m : PropMap) (k : String) (v : CssPropertyValue) : PropMap :=
  match m with
  | [] => [(k, v)]
  | (k0, v0) :: rest =>
      if k0 = k then (k0, v) :: rest else (k0, v0) :: PropMap.insert rest k v

/-- One parsed rule (`CssRule_`): a selector string and its property
map. -/
structure CssRule where
  selector : String
  properties : PropMap
  deriving DecidableEq, Repr

/-- The parsed stylesheet (`CssStyleSheet`): the rules in sheet order. -/
structure CssStyleSheet where
  rules : List CssRule
  deriving DecidableEq, Repr

/-- The inner `for (prop, value) in &rule.properties` copy of
`compute_element_styles`: insert every property of one rule into the
accumulator (the source iterates a `HashMap`, whose order is arbitrary;
as the keys of one rule are unique the resulting map contents do not
depend on that order, and the embedding fixes list order). -/
def insertAll (computed : PropMap) (props : PropMap) : PropMap :=
  props.foldl (fun m p => PropMap.insert m p.1 p.2) computed

/-- One `for rule in &stylesheet.rules { if rule.selector == sel }`
pass of `compute_element_styles`. -/
def applyMatching (computed : PropMap) (rules : List CssRule) (sel : String) : PropMap :=
  rules.foldl
    (fun m r => if r.selector = sel then insertAll m r.properties else m) computed

/-- Embedding of `compute_element_styles`
(src/src/html_ui_builder/utils.rs lines 6-48, and the identical
function in src/src/html_ui_builder/mod.rs lines 323-365): merge, into
an initially empty map, the rules whose selector equals the tag, then
for each class in source order the rules whose selector is
`"." ++ class`, then, when an id is present, the rules whose selector
is `"#" ++ id`, each insertion overwriting property-by-property. -/
def compute_element_styles (tag : String) (id : Option String)
    (classes : List String) (sheet : CssStyleSheet) : PropMap :=
  let computed : PropMap := []
  let computed := applyMatching computed sheet.rules tag
  let computed :=
    classes.foldl (fun m cls => applyMatching m sheet.rules ("." ++ cls)) computed
  match id with
  | some i => applyMatching computed sheet.rules ("#" ++ i)
  | Option.none => computed

/-- Spec-side lookup of the rule table: the (first) rule whose selector
equals the given string, as the claim words it ("the rule whose
selector equals T"). -/
def lookupRule (sheet : CssStyleSheet) (sel : String) : Option PropMap :=
  (sheet.rules.find? (fun r => r.selector == sel)).map (fun r => r.properties)

/-- Spec-side merge step: merge the matched rule's properties into the
accumulated map property-by-property, or keep the map when no rule
matches. -/
def mergeOpt (m : PropMap) (o : Option PropMap) : PropMap :=
  match o with
  | some ps => insertAll m ps
  | Option.none => m

/-- Spec-side cascade, written from the words of the claim: merge the
tag rule, then the rule of each class in source order, then the id rule
last, each step overwriting previously merged entries
property-by-property. -/
def cascadeSpec (tag : String) (id : Option String) (classes : List String)
    (sheet : CssStyleSheet) : PropMap :=
  let m := mergeOpt [] (lookupRule sheet tag)
  let m := classes.foldl (fun m cls => mergeOpt m (lookupRule sheet ("." ++ cls))) m
  match id with
  | some i => mergeOpt m (lookupRule sheet ("#" ++ i))
  | Option.none => m

/-- The cascade-precedence example sheet of the spec: tag rule
`div { width: 100px; }`, class rule `.box { width: 200px; }`, id rule
`#main { width: 300px; }`. -/
def exampleSheet : CssStyleSheet :=
  ⟨[⟨"div", [("width", CssPropertyValue.length 100 "px")]⟩,
    ⟨".box", [("width", CssPropertyValue.length 200 "px")]⟩,
    ⟨"#main", [("width", CssPropertyValue.length 300 "px")]⟩]⟩

end HtmlUiBuilder

open CssParser HtmlUiBuilder

/-- Helper: the Length decoder has no panic path. -/
theorem parse_value_ne_panicked (s : PState) : parse_value s ≠ DRes.panicked := by
  rcases s with ⟨toks, pos⟩
  cases toks with
  | nil => simp [parse_value, next]
  | cons t rest =>
      cases t <;> simp [parse_value, next] <;> split <;> simp

/-- Helper: the box-edges decoder only runs the Length decoder, so it
has no panic path either. -/
theorem parse_ui_rect_ne_panicked (s : PState) : parse_ui_rect s ≠ DRes.panicked := by
  unfold parse_ui_rect
  split
  · simp
  · exact fun _ => absurd (by assumption) (parse_value_ne_panicked s)
  · repeat' split
    all_goals simp

/-- Claim C1: the box-edges decoder expands value lists by the standard
CSS rule.  What the code actually does: 1 value sets all four edges and
the 4-value form is top, right, bottom, left as claimed, but the 2- and
3-value forms pass the values positionally to `UiRect::new`, whose
parameter order is left, right, top, bottom; so 2 values give
left/top = first, right/bottom = second (the claim demands top/bottom =
first, left/right = second) and 3 values give left = first,
right/bottom = second, top = third (the claim demands top = first,
left/right = second, bottom = third).  The final conjunct refutes the
claimed expansion of `margin: 10px 20px` explicitly. -/
theorem claim1_box_shorthand :
    (∀ (v : Rat) (pos : Nat),
      parse_ui_rect ⟨[Token.dimension v "px"], pos⟩ =
        DRes.ok (UiRect.all (Val.px v)) ⟨[], pos + 1⟩)
    ∧ (∀ (v w : Rat) (pos : Nat),
      parse_ui_rect ⟨[Token.dimension v "px", Token.dimension w "px"], pos⟩ =
        DRes.ok ⟨Val.px v, Val.px w, Val.px v, Val.px w⟩ ⟨[], pos + 2⟩)
    ∧ (∀ (a b c : Rat) (pos : Nat),
      parse_ui_rect
          ⟨[Token.dimension a "px", Token.dimension b "px", Token.dimension c "px"],
            pos⟩ =
        DRes.ok ⟨Val.px a, Val.px b, Val.px c, Val.px b⟩ ⟨[], pos + 3⟩)
    ∧ (∀ (a b c d : Rat) (pos : Nat),
      parse_ui_rect
          ⟨[Token.dimension a "px", Token.dimension b "px", Token.dimension c "px",
              Token.dimension d "px"], pos⟩ =
        DRes.ok ⟨Val.px d, Val.px b, Val.px a, Val.px c⟩ ⟨[], pos + 4⟩)
    ∧ (∀ s : PState,
      parse_ui_rect ⟨[Token.dimension 10 "px", Token.dimension 20 "px"], 0⟩ ≠
        DRes.ok ⟨Val.px 20, Val.px 20, Val.px 10, Val.px 10⟩ s) := by
  refine ⟨fun v pos => rfl, fun v w pos => rfl, fun a b c pos => rfl,
    fun a b c d pos => rfl, fun s h => ?_⟩
  have h2 : parse_ui_rect ⟨[Token.dimension 10 "px", Token.dimension 20 "px"], 0⟩ =
      DRes.ok ⟨Val.px 10, Val.px 20, Val.px 10, Val.px 20⟩ ⟨[], 2⟩ := rfl
  injection h2.symm.trans h with ha hs
  exact absurd ha (by decide)

/-- Claim C2: the value decoders never panic and always return a typed
parse error.  True of `parse_value` and `parse_ui_rect`, but false of
`parse_color`: its hex-byte decoding unwraps `u8::from_str_radix`, so a
Hash token of length 6 (or 8) whose characters are not hexadecimal
digits panics instead of producing an error — witnessed here by the
Hash token `gggggg`. -/
theorem claim2_never_panic :
    (∀ s : PState, parse_value s ≠ DRes.panicked)
    ∧ (∀ s : PState, parse_ui_rect s ≠ DRes.panicked)
    ∧ parse_color ⟨[Token.hash "gggggg"], 0⟩ = DRes.panicked :=
  ⟨parse_value_ne_panicked, parse_ui_rect_ne_panicked, rfl⟩

/-- Claim C8 (amended): the Length decoder maps a Dimension token with
lower-cased unit px to pixels and % to percent and any other unit to
InvalidToken; a bare Number token to pixels; an identifier lowercasing
to auto/undefined to the Auto/Undefined variants and any other
identifier to InvalidToken; a Percentage token to percent; and any
token of any other kind to UnexpectedToken. -/
theorem claim8_length_decoder :
    (∀ (v : Rat) (u : String) (rest : List Token) (pos : Nat), lowerStr u = "px" →
      parse_value ⟨Token.dimension v u :: rest, pos⟩ =
        DRes.ok (Val.px v) ⟨rest, pos + 1⟩)
    ∧ (∀ (v : Rat) (u : String) (rest : List Token) (pos : Nat), lowerStr u = "%" →
      parse_value ⟨Token.dimension v u :: rest, pos⟩ =
        DRes.ok (Val.percent v) ⟨rest, pos + 1⟩)
    ∧ (∀ (v : Rat) (u : String) (rest : List Token) (pos : Nat),
      lowerStr u ≠ "px" → lowerStr u ≠ "%" →
      parse_value ⟨Token.dimension v u :: rest, pos⟩ =
        DRes.err ⟨ParseErrorKind.invalidToken, pos⟩ ⟨rest, pos + 1⟩)
    ∧ (∀ (v : Rat) (rest : List Token) (pos : Nat),
      parse_value ⟨Token.number v :: rest, pos⟩ = DRes.ok (Val.px v) ⟨rest, pos + 1⟩)
    ∧ (∀ (i : String) (rest : List Token) (pos : Nat), lowerStr i = "auto" →
      parse_value ⟨Token.ident i :: rest, pos⟩ = DRes.ok Val.auto ⟨rest, pos + 1⟩)
    ∧ (∀ (i : String) (rest : List Token) (pos : Nat), lowerStr i = "undefined" →
      parse_value ⟨Token.ident i :: rest, pos⟩ = DRes.ok Val.undefined ⟨rest, pos + 1⟩)
    ∧ (∀ (i : String) (rest : List Token) (pos : Nat),
      lowerStr i ≠ "auto" → lowerStr i ≠ "undefined" →
      parse_value ⟨Token.ident i :: rest, pos⟩ =
        DRes.err ⟨ParseErrorKind.invalidToken, pos⟩ ⟨rest, pos + 1⟩)
    ∧ (∀ (v : Rat) (rest : List Token) (pos : Nat),
      parse_value ⟨Token.percentage v :: rest, pos⟩ =
        DRes.ok (Val.percent v) ⟨rest, pos + 1⟩)
    ∧ (∀ (t : Token) (rest : List Token) (pos : Nat),
      (∀ v u, t ≠ Token.dimension v u) → (∀ v, t ≠ Token.number v) →
      (∀ i, t ≠ Token.ident i) → (∀ v, t ≠ Token.percentage v) →
      parse_value ⟨t :: rest, pos⟩ =
        DRes.err ⟨ParseErrorKind.unexpectedToken, pos⟩ ⟨rest, pos + 1⟩) := by
  refine ⟨?_, ?_, ?_, ?_, ?_, ?_, ?_, ?_, ?_⟩
  · intro v u rest pos hu
    simp [parse_value, next, hu]
  · intro v u rest pos hu
    simp [parse_value, next, hu]
  · intro v u rest pos h1 h2
    simp only [parse_value, next]
  · intro v rest pos
    rfl
  · intro i rest pos hi
    simp [parse_value, next, hi]
  · intro i rest pos hi
    simp [parse_value, next, hi]
  · intro i rest pos h1 h2
    simp only [parse_value, next]
  · intro v rest pos
    rfl
  · intro t rest pos hdim hnum hid hpct
    cases t with
    | ident i => exact absurd rfl (hid i)
    | quoted s => rfl
    | number v => exact absurd rfl (hnum v)
    | dimension v u => exact absurd rfl (hdim v u)
    | percentage v => exact absurd rfl (hpct v)
    | hash s => rfl
    | colon => rfl
    | semicolon => rfl
    | startRule => rfl
    | closeCurlyBrace => rfl
    | atKeyword s => rfl

/-- Claim C8, counterexample to the claim as stated: a Percentage token
is not a Dimension, Number, or auto/undefined identifier token, so the
claim's final clause says it is an UnexpectedToken error; the decoder
instead accepts it as a percent value. -/
theorem claim8_percentage_counterexample :
    parse_value ⟨[Token.percentage 50], 0⟩ = DRes.ok (Val.percent 50) ⟨[], 1⟩
    ∧ ∀ (e : ParseError) (s : PState),
      parse_value ⟨[Token.percentage 50], 0⟩ ≠ DRes.err e s := by
  refine ⟨rfl, fun e s h => ?_⟩
  have h2 : parse_value ⟨[Token.percentage 50], 0⟩ =
      DRes.ok (Val.percent 50) ⟨[], 1⟩ := rfl
  exact absurd (h2.symm.trans h) (by simp)

/-- Claim C8, witness: the amended theorem applied at the concrete
Dimension token `5em`, whose unit is neither px nor %. -/
theorem claim8_witness :
    parse_value ⟨[Token.dimension 5 "em"], 0⟩ =
      DRes.err ⟨ParseErrorKind.invalidToken, 0⟩ ⟨[], 1⟩ :=
  claim8_length_decoder.2.2.1 5 "em" [] 0 (by decide) (by decide)

/-- Claim C7 (amended): the color decoder maps the identifier keywords
red, green, blue, white, black, transparent to fixed RGBA constants;
maps a Hash token of length 6 whose two-character groups are
hexadecimal to an RGB color with alpha 1 and each channel its hex byte
divided by 255; likewise a Hash token of length 8 to an RGBA color;
returns InvalidToken for a Hash token of any other length; returns
UnexpectedToken for any token that is neither an identifier nor a
Hash; returns InvalidToken for an identifier outside the keyword set;
and panics on a Hash token of length 6 or of length 8 any of whose
two-character groups is not hexadecimal (the unwrap of
from_str_radix, see C2) — the last three cases are the final three
conjuncts. -/
theorem claim7_color_decoder :
    (∀ (rest : List Token) (pos : Nat),
      parse_color ⟨Token.ident "red" :: rest, pos⟩ = DRes.ok Color.RED ⟨rest, pos + 1⟩)
    ∧ (∀ (rest : List Token) (pos : Nat),
      parse_color ⟨Token.ident "green" :: rest, pos⟩ = DRes.ok Color.GREEN ⟨rest, pos + 1⟩)
    ∧ (∀ (rest : List Token) (pos : Nat),
      parse_color ⟨Token.ident "blue" :: rest, pos⟩ = DRes.ok Color.BLUE ⟨rest, pos + 1⟩)
    ∧ (∀ (rest : List Token) (pos : Nat),
      parse_color ⟨Token.ident "white" :: rest, pos⟩ = DRes.ok Color.WHITE ⟨rest, pos + 1⟩)
    ∧ (∀ (rest : List Token) (pos : Nat),
      parse_color ⟨Token.ident "black" :: rest, pos⟩ = DRes.ok Color.BLACK ⟨rest, pos + 1⟩)
    ∧ (∀ (rest : List Token) (pos : Nat),
      parse_color ⟨Token.ident "transparent" :: rest, pos⟩ =
        DRes.ok Color.NONE ⟨rest, pos + 1⟩)
    ∧ (∀ (hx : String) (rest : List Token) (pos : Nat) (r g b : Nat),
      hx.length = 6 →
      hexByte? (strSlice hx 0 2) = some r → hexByte? (strSlice hx 2 4) = some g →
      hexByte? (strSlice hx 4 6) = some b →
      parse_color ⟨Token.hash hx :: rest, pos⟩ =
        DRes.ok (Color.rgb ((r : Rat) / 255) ((g : Rat) / 255) ((b : Rat) / 255))
          ⟨rest, pos + 1⟩)
    ∧ (∀ (hx : String) (rest : List Token) (pos : Nat) (r g b a : Nat),
      hx.length = 8 →
      hexByte? (strSlice hx 0 2) = some r → hexByte? (strSlice hx 2 4) = some g →
      hexByte? (strSlice hx 4 6) = some b → hexByte? (strSlice hx 6 8) = some a →
      parse_color ⟨Token.hash hx :: rest, pos⟩ =
        DRes.ok (Color.rgba ((r : Rat) / 255) ((g : Rat) / 255) ((b : Rat) / 255)
          ((a : Rat) / 255)) ⟨rest, pos + 1⟩)
    ∧ (∀ (hx : String) (rest : List Token) (pos : Nat),
      hx.length ≠ 6 → hx.length ≠ 8 →
      parse_color ⟨Token.hash hx :: rest, pos⟩ =
        DRes.err ⟨ParseErrorKind.invalidToken, pos⟩ ⟨rest, pos + 1⟩)
    ∧ (∀ (t : Token) (rest : List Token) (pos : Nat),
      (∀ x, t ≠ Token.ident x) → (∀ x, t ≠ Token.hash x) →
      parse_color ⟨t :: rest, pos⟩ =
        DRes.err ⟨ParseErrorKind.unexpectedToken, pos⟩ ⟨rest, pos + 1⟩)
    ∧ (∀ (i : String) (rest : List Token) (pos : Nat),
      lowerStr i ≠ "red" → lowerStr i ≠ "green" → lowerStr i ≠ "blue" →
      lowerStr i ≠ "white" → lowerStr i ≠ "black" → lowerStr i ≠ "transparent" →
      parse_color ⟨Token.ident i :: rest, pos⟩ =
        DRes.err ⟨ParseErrorKind.invalidToken, pos⟩ ⟨rest, pos + 1⟩)
    ∧ (∀ (hx : String) (rest : List Token) (pos : Nat),
      hx.length = 6 →
      (hexByte? (strSlice hx 0 2) = Option.none ∨
       hexByte? (strSlice hx 2 4) = Option.none ∨
       hexByte? (strSlice hx 4 6) = Option.none) →
      parse_color ⟨Token.hash hx :: rest, pos⟩ = DRes.panicked)
    ∧ (∀ (hx : String) (rest : List Token) (pos : Nat),
      hx.length = 8 →
      (hexByte? (strSlice hx 0 2) = Option.none ∨
       hexByte? (strSlice hx 2 4) = Option.none ∨
       hexByte? (strSlice hx 4 6) = Option.none ∨
       hexByte? (strSlice hx 6 8) = Option.none) →
      parse_color ⟨Token.hash hx :: rest, pos⟩ = DRes.panicked) := by
  refine ⟨fun rest pos => rfl, fun rest pos => rfl, fun rest pos => rfl,
    fun rest pos => rfl, fun rest pos => rfl, fun rest pos => rfl,
    ?_, ?_, ?_, ?_, ?_, ?_, ?_⟩
  · intro hx rest pos r g b h6 hr hg hb
    simp [parse_color, next, h6, hr, hg, hb]
  · intro hx rest pos r g b a h8 hr hg hb ha
    simp [parse_color, next, h8, hr, hg, hb, ha]
  · intro hx rest pos h6 h8
    simp [parse_color, next, h6, h8]
  · intro t rest pos hident hhash
    cases t with
    | ident x => exact absurd rfl (hident x)
    | hash x => exact absurd rfl (hhash x)
    | quoted s => rfl
    | number v => rfl
    | dimension v u => rfl
    | percentage v => rfl
    | colon => rfl
    | semicolon => rfl
    | startRule => rfl
    | closeCurlyBrace => rfl
    | atKeyword s => rfl
  · intro i rest pos h1 h2 h3 h4 h5 h6
    simp only [parse_color, next]
  · intro hx rest pos h6 hnone
    cases hb1 : hexByte? (strSlice hx 0 2) <;>
      cases hb2 : hexByte? (strSlice hx 2 4) <;>
        cases hb3 : hexByte? (strSlice hx 4 6) <;>
          simp_all [parse_color, next]
  · intro hx rest pos h8 hnone
    cases hb1 : hexByte? (strSlice hx 0 2) <;>
      cases hb2 : hexByte? (strSlice hx 2 4) <;>
        cases hb3 : hexByte? (strSlice hx 4 6) <;>
          cases hb4 : hexByte? (strSlice hx 6 8) <;>
            simp_all [parse_color, next]

/-- Claim C7, counterexample to the claim as stated: the claim says a
Hash token of length 6 maps to an RGB color, but on the length-6 Hash
token `zzzzzz` the decoder panics (unwrap of `from_str_radix`) and
returns no color at all. -/
theorem claim7_hash_counterexample :
    parse_color ⟨[Token.hash "zzzzzz"], 0⟩ = DRes.panicked
    ∧ ∀ (c : Color) (s : PState),
      parse_color ⟨[Token.hash "zzzzzz"], 0⟩ ≠ DRes.ok c s := by
  refine ⟨rfl, fun c s h => ?_⟩
  have h2 : parse_color ⟨[Token.hash "zzzzzz"], 0⟩ = DRes.panicked := rfl
  exact absurd (h2.symm.trans h) (by simp)

/-- Claim C7, witness: the amended theorem applied at the concrete Hash
token `ff0000`, giving RGBA(1, 0, 0, 1). -/
theorem claim7_witness :
    parse_color ⟨[Token.hash "ff0000"], 0⟩ =
      DRes.ok (Color.rgb ((255 : Rat) / 255) ((0 : Rat) / 255) ((0 : Rat) / 255))
        ⟨[], 1⟩ :=
  claim7_color_decoder.2.2.2.2.2.2.1 "ff0000" [] 0 255 0 0 rfl rfl rfl rfl

/-- Claim C5: an unknown property is skipped without error.  What the
code actually does: the claim's own example (unknown declaration
terminated by a semicolon, then `width: 50px;`) does yield width = 50px
with no error (first conjunct); but the skip loop stops only at a
semicolon, not at a closing brace, so a trailing unknown declaration
terminated by the closing brace consumes that brace and everything
after it up to the next semicolon or end of input (second conjunct:
`parse_rule` consumes the brace and the token after it), and at sheet
level this swallows the entire following rule: in the third conjunct
the `p { height: 10px }` rule after the brace-terminated unknown
declaration leaves no trace in the rule table. -/
theorem claim5_unknown_property :
    parse_stylesheet
        [Token.startRule, Token.ident "div", Token.ident "unknown-prop", Token.colon,
         Token.ident "whatever", Token.semicolon, Token.ident "width", Token.colon,
         Token.dimension 50 "px", Token.semicolon, Token.closeCurlyBrace] [] =
      SheetOut.done [("div", { width := some (Val.px 50) })]
    ∧ parse_rule
        ⟨[Token.ident "unknown-prop", Token.colon, Token.ident "whatever",
          Token.closeCurlyBrace, Token.ident "leftover"], 0⟩ "div" [] =
      RuleOut.ok ⟨[], 5⟩ [("div", StyleProperties.defaultProps)]
    ∧ parse_stylesheet
        [Token.startRule, Token.ident "div", Token.ident "width", Token.colon,
         Token.dimension 50 "px", Token.semicolon, Token.ident "unknown-prop",
         Token.colon, Token.ident "whatever", Token.closeCurlyBrace,
         Token.startRule, Token.ident "p", Token.ident "height", Token.colon,
         Token.dimension 10 "px", Token.closeCurlyBrace] [] =
      SheetOut.done [("div", { width := some (Val.px 50) })] :=
  ⟨rfl, rfl, rfl⟩

/-- Claim C6: a malformed value in one declaration never drops the rest
of the rule or the sheet.  First conjunct: whenever `parse_rule`
returns an InvalidToken or UnexpectedToken error, the rule-body loop of
`parse_stylesheet` continues on the same rule body after skipping to
the next semicolon or closing brace.  Second and third conjuncts: the
rule body `{ color: #zzz; width: 10px; }` of the claim (and its
`background-color: #zzz` variant, which exercises the actual
InvalidToken recovery path, `color` itself being an unrecognized
property name) still yields width = 10px, and `parse_stylesheet`
returns the rule table, not an error. -/
theorem claim6_error_recovery :
    (∀ (fuel : Nat) (s s1 : PState) (selector : String) (rules rules1 : RMap)
      (t : Token) (s2 : PState) (e : ParseError),
      next s = Except.ok (t, s2) → t ≠ Token.closeCurlyBrace → t ≠ Token.semicolon →
      parse_rule s selector rules = RuleOut.err e s1 rules1 →
      (e.kind = ParseErrorKind.invalidToken ∨ e.kind = ParseErrorKind.unexpectedToken) →
      bodyLoop (fuel + 1) s selector rules =
        bodyLoop fuel (skipToSemicolonOrBrace s1) selector rules1)
    ∧ parse_stylesheet
        [Token.startRule, Token.ident "div", Token.ident "color", Token.colon,
         Token.hash "zzz", Token.semicolon, Token.ident "width", Token.colon,
         Token.dimension 10 "px", Token.semicolon, Token.closeCurlyBrace] [] =
      SheetOut.done [("div", { width := some (Val.px 10) })]
    ∧ parse_stylesheet
        [Token.startRule, Token.ident "div", Token.ident "background-color",
         Token.colon, Token.hash "zzz", Token.semicolon, Token.ident "width",
         Token.colon, Token.dimension 10 "px", Token.semicolon,
         Token.closeCurlyBrace] [] =
      SheetOut.done [("div", { width := some (Val.px 10) })] := by
  refine ⟨?_, rfl, rfl⟩
  intro fuel s s1 selector rules rules1 t s2 e hnext hbrace hsemi hrule hkind
  simp only [bodyLoop, hnext]
  cases t with
  | closeCurlyBrace => exact absurd rfl hbrace
  | semicolon => exact absurd rfl hsemi
  | ident x => rw [hrule]; rcases hkind with hk | hk <;> simp [hk]
  | quoted x => rw [hrule]; rcases hkind with hk | hk <;> simp [hk]
  | number v => rw [hrule]; rcases hkind with hk | hk <;> simp [hk]
  | dimension v u => rw [hrule]; rcases hkind with hk | hk <;> simp [hk]
  | percentage v => rw [hrule]; rcases hkind with hk | hk <;> simp [hk]
  | hash x => rw [hrule]; rcases hkind with hk | hk <;> simp [hk]
  | colon => rw [hrule]; rcases hkind with hk | hk <;> simp [hk]
  | startRule => rw [hrule]; rcases hkind with hk | hk <;> simp [hk]
  | atKeyword x => rw [hrule]; rcases hkind with hk | hk <;> simp [hk]

/-- Claim C6, witness: the recovery clause applied at the concrete rule
body `background-color: #zzz; width: 10px; }`, whose first declaration
errors with InvalidToken. -/
theorem claim6_witness :
    bodyLoop 9 ⟨[Token.ident "background-color", Token.colon, Token.hash "zzz",
        Token.semicolon, Token.ident "width", Token.colon, Token.dimension 10 "px",
        Token.semicolon, Token.closeCurlyBrace], 2⟩ "div" [] =
      bodyLoop 8
        (skipToSemicolonOrBrace ⟨[Token.semicolon, Token.ident "width", Token.colon,
          Token.dimension 10 "px", Token.semicolon, Token.closeCurlyBrace], 5⟩)
        "div" [("div", StyleProperties.defaultProps)] :=
  claim6_error_recovery.1 8
    ⟨[Token.ident "background-color", Token.colon, Token.hash "zzz",
      Token.semicolon, Token.ident "width", Token.colon, Token.dimension 10 "px",
      Token.semicolon, Token.closeCurlyBrace], 2⟩
    ⟨[Token.semicolon, Token.ident "width", Token.colon, Token.dimension 10 "px",
      Token.semicolon, Token.closeCurlyBrace], 5⟩
    "div" [] [("div", StyleProperties.defaultProps)]
    (Token.ident "background-color")
    ⟨[Token.colon, Token.hash "zzz", Token.semicolon, Token.ident "width",
      Token.colon, Token.dimension 10 "px", Token.semicolon,
      Token.closeCurlyBrace], 3⟩
    ⟨ParseErrorKind.invalidToken, 4⟩
    rfl (by decide) (by decide) rfl (Or.inl rfl)

/-- Claim C9: parsing is deterministic — two invocations of
`parse_stylesheet` on the same token stream starting from the empty
rules map produce identical rule tables.  The embedding is a pure
function of the token stream, so the two runs are definitionally the
same value. -/
theorem claim9_determinism (ts : List Token) :
    parse_stylesheet ts [] = parse_stylesheet ts [] := rfl

/-- Claim C10: in the css_parser apply step, an element whose selector
string is found in the rules map (by exact string equality) gets its
entire `Style` replaced by the conversion of the matched properties:
the result equals `Style::from(props)`, is independent of the element's
previous style, and slots the rule leaves unset (width, display shown)
come out as the type's defaults, not as the previous style's values. -/
theorem claim10_apply_css (rules : RMap) (sel : String) (style : Style)
    (props : StyleProperties) (hget : RMap.get rules sel = some props) :
    apply_css_element rules sel style = styleFromProps props
    ∧ (∀ other : Style,
        apply_css_element rules sel other = apply_css_element rules sel style)
    ∧ (props.width = Option.none →
        (apply_css_element rules sel style).width = Style.defaultStyle.width)
    ∧ (props.display = Option.none →
        (apply_css_element rules sel style).display = Style.defaultStyle.display) := by
  refine ⟨?_, ?_, ?_, ?_⟩
  · simp [apply_css_element, hget]
  · intro other
    simp [apply_css_element, hget]
  · intro hw
    simp [apply_css_element, hget, styleFromProps, hw]
  · intro hd
    simp [apply_css_element, hget, styleFromProps, hd]

/-- Claim C10, witness: the theorem applied at a concrete one-entry
rules map whose entry is the default (all-unset) properties record. -/
theorem claim10_witness :
    apply_css_element [("sel1", StyleProperties.defaultProps)] "sel1"
        Style.defaultStyle =
      styleFromProps StyleProperties.defaultProps :=
  (claim10_apply_css [("sel1", StyleProperties.defaultProps)] "sel1"
    Style.defaultStyle StyleProperties.defaultProps rfl).1

/-- Helper: one step of the selector-matching fold. -/
theorem applyMatching_cons (m : PropMap) (r : CssRule) (rs : List CssRule)
    (sel : String) :
    applyMatching m (r :: rs) sel =
      applyMatching (if r.selector = sel then insertAll m r.properties else m) rs sel :=
  rfl

/-- Helper: a pass over rules none of which match the selector leaves
the accumulated map unchanged. -/
theorem applyMatching_no_match (rules : List CssRule) (sel : String)
    (h : ∀ r ∈ rules, r.selector ≠ sel) :
    ∀ m : PropMap, applyMatching m rules sel = m := by
  induction rules with
  | nil => intro m; rfl
  | cons r rs ih =>
      intro m
      rw [applyMatching_cons, if_neg (h r (by simp))]
      exact ih (fun r' hr' => h r' (by simp [hr'])) m

/-- Helper: when the sheet's selectors are pairwise distinct, one
matching pass over all rules is exactly the spec-side merge of the
looked-up rule. -/
theorem applyMatching_eq_mergeOpt (sheet : CssStyleSheet) (sel : String)
    (h : (sheet.rules.map (fun r => r.selector)).Nodup) :
    ∀ m : PropMap, applyMatching m sheet.rules sel = mergeOpt m (lookupRule sheet sel) := by
  unfold lookupRule
  obtain ⟨rules⟩ := sheet
  simp only []
  induction rules with
  | nil => intro m; rfl
  | cons r rs ih =>
      intro m
      by_cases hsel : r.selector = sel
      · rw [applyMatching_cons, if_pos hsel,
          List.find?_cons_of_pos _ (by simp [hsel])]
        simp only [Option.map_some', mergeOpt]
        apply applyMatching_no_match
        intro r' hr' heq
        have hmem : r.selector ∈ rs.map (fun r => r.selector) := by
          rw [hsel, ← heq]
          exact List.mem_map_of_mem _ hr'
        exact (List.nodup_cons.mp h).1 hmem
      · rw [applyMatching_cons, if_neg hsel,
          List.find?_cons_of_neg _ (by simp [hsel])]
        exact ih (List.nodup_cons.mp h).2 m

/-- Helper: the class-list fold of the source agrees with the spec-side
class-list fold, selector distinctness assumed. -/
theorem classesFold_eq (sheet : CssStyleSheet)
    (h : (sheet.rules.map (fun r => r.selector)).Nodup) (classes : List String) :
    ∀ m : PropMap,
      classes.foldl (fun m cls => applyMatching m sheet.rules ("." ++ cls)) m =
        classes.foldl (fun m cls => mergeOpt m (lookupRule sheet ("." ++ cls))) m := by
  induction classes with
  | nil => intro m; rfl
  | cons c cs ih =>
      intro m
      rw [List.foldl_cons, List.foldl_cons, applyMatching_eq_mergeOpt sheet _ h]
      exact ih _

/-- Claim C3: the cascade resolver merges matching rules tag first,
then each class in source order, then the id rule last, each step
overwriting property-by-property.  First conjunct: on any sheet whose
selectors are pairwise distinct, `compute_element_styles` equals the
cascade written from the claim's words (`cascadeSpec`).  The remaining
conjuncts check the spec's precedence examples on the
div/.box/#main sheet: with the id the final width is 300px (id wins),
without it 200px (class overrides tag). -/
theorem claim3_cascade_order :
    (∀ (tag : String) (id : Option String) (classes : List String)
      (sheet : CssStyleSheet),
      (sheet.rules.map (fun r => r.selector)).Nodup →
      compute_element_styles tag id classes sheet = cascadeSpec tag id classes sheet)
    ∧ PropMap.get (compute_element_styles "div" (some "main") ["box"] exampleSheet)
        "width" = some (CssPropertyValue.length 300 "px")
    ∧ PropMap.get (compute_element_styles "div" Option.none ["box"] exampleSheet)
        "width" = some (CssPropertyValue.length 200 "px") := by
  refine ⟨?_, rfl, rfl⟩
  intro tag id classes sheet h
  simp only [compute_element_styles, cascadeSpec]
  rw [applyMatching_eq_mergeOpt sheet _ h, classesFold_eq sheet h]
  cases id with
  | none => rfl
  | some i =>
      simp only []
      rw [applyMatching_eq_mergeOpt sheet _ h]

/-- Claim C3, witness: the refinement clause applied at the concrete
example sheet, whose three selectors are distinct. -/
theorem claim3_witness :
    compute_element_styles "div" (some "main") ["box"] exampleSheet =
      cascadeSpec "div" (some "main") ["box"] exampleSheet :=
  claim3_cascade_order.1 "div" (some "main") ["box"] exampleSheet (by decide)

/-- Claim C4: a rule that leaves a property unset never erases a value
set by an earlier-merged rule: for any element matched by a tag rule
setting only P and a class rule setting only Q (P and Q distinct), the
merged result carries both values. -/
theorem claim4_unset_not_clobbered (tag cls P Q : String) (v w : CssPropertyValue)
    (hPQ : P ≠ Q) (htag : tag ≠ "." ++ cls) :
    PropMap.get (compute_element_styles tag Option.none [cls]
        ⟨[⟨tag, [(P, v)]⟩, ⟨"." ++ cls, [(Q, w)]⟩]⟩) P = some v
    ∧ PropMap.get (compute_element_styles tag Option.none [cls]
        ⟨[⟨tag, [(P, v)]⟩, ⟨"." ++ cls, [(Q, w)]⟩]⟩) Q = some w := by
  constructor <;>
    simp [compute_element_styles, applyMatching, insertAll, PropMap.insert,
      PropMap.get, hPQ, Ne.symm hPQ, htag, Ne.symm htag]

/-- Claim C4, witness: the theorem applied at a tag rule `div` setting
only color and a class rule `.box` setting only width. -/
theorem claim4_witness :
    PropMap.get (compute_element_styles "div" Option.none ["box"]
        ⟨[⟨"div", [("color", CssPropertyValue.str "red")]⟩,
          ⟨"." ++ "box", [("width", CssPropertyValue.length 50 "px")]⟩]⟩)
        "color" = some (CssPropertyValue.str "red")
    ∧ PropMap.get (compute_element_styles "div" Option.none ["box"]
        ⟨[⟨"div", [("color", CssPropertyValue.str "red")]⟩,
          ⟨"." ++ "box", [("width", CssPropertyValue.length 50 "px")]⟩]⟩)
        "width" = some (CssPropertyValue.length 50 "px") :=
  claim4_unset_not_clobbered "div" "box" "color" "width"
    (CssPropertyValue.str "red") (CssPropertyValue.length 50 "px")
    (by decide) (by decide)
